import Mathlib

/-!
# cuda::profiling: the forwarding layer of `src/cuda/api/profiling.cpp`

The translation unit forwards to the native instrumentation library (NVTX, the
CUDA profiler API) and to the thread-self call of the operating system.  Here a call of
the calling thread is a `Prog`: given the events the thread has produced so far, it
yields a result and the events it appends.  Everything the native side decides
(returned range identifiers, returned status codes, the thread-self identifier, the
prior contents of an automatic variable that is never initialised) is a field of
`Env`, so that every theorem quantifies over all native behaviours.
-/

namespace cuda
namespace profiling

/-! ## Machine types -/

/-- The type `uint32_t`. -/
abbrev uint32_t := Fin (2 ^ 32)

/-- The type `uint64_t`. -/
abbrev uint64_t := Fin (2 ^ 64)

/-- Implicit conversion of an unsigned integer value to `uint32_t`: reduction modulo `2 ^ 32`. -/
def to_uint32 (n : Nat) : uint32_t := ⟨n % 2 ^ 32, Nat.mod_lt _ (by norm_num)⟩

/-- A `std::string`: a sequence of bytes, any of which may be the NUL byte. -/
abbrev std_string := List (Fin 256)

/-- A `std::wstring`: a sequence of wide characters, given by their code unit values. -/
abbrev std_wstring := List Nat

/-- What a `const char*` points at: the bytes of the buffer, from the pointer onwards. -/
abbrev c_string := List (Fin 256)

/-- What a `const wchar_t*` points at. -/
abbrev c_wstring := List Nat

/-- The call `std::string::c_str()`: the bytes of the string followed by a terminating NUL. -/
def c_str (s : std_string) : c_string := s ++ [0]

/-- The call `std::wstring::c_str()`. -/
def wc_str (s : std_wstring) : c_wstring := s ++ [0]

/-- How a C interface reads a NUL-terminated narrow string: the bytes before the first NUL. -/
def read_c_string (p : c_string) : List (Fin 256) := p.takeWhile (fun b => b ≠ 0)

/-! ## Declarations of the native headers and of `cuda/api/profiling.hpp` -/

/-- The enumeration `nvtxColorType_t` of `nvToolsExt.h`; its zero value is the first constructor. -/
inductive nvtxColorType_t where
  | NVTX_COLOR_UNKNOWN
  | NVTX_COLOR_ARGB
deriving DecidableEq

/-- The enumeration `nvtxMessageType_t` of `nvToolsExt.h`; its zero value is the first constructor. -/
inductive nvtxMessageType_t where
  | NVTX_MESSAGE_UNKNOWN
  | NVTX_MESSAGE_TYPE_ASCII
  | NVTX_MESSAGE_TYPE_UNICODE
deriving DecidableEq

/-- The record `nvtxEventAttributes_t` of `nvToolsExt.h`.  The field `message` is the
`message.ascii` pointer: `none` is the null pointer, `some p` a pointer to the buffer `p`. -/
structure nvtxEventAttributes_t where
  version : Nat
  size : Nat
  category : Nat
  colorType : nvtxColorType_t
  color : uint32_t
  payloadType : Nat
  reserved0 : Nat
  payload : Nat
  messageType : nvtxMessageType_t
  message : Option c_string
deriving DecidableEq

/-- The initialiser `= {0}`: every field of the record is zero. -/
def nvtxEventAttributes_t.zero : nvtxEventAttributes_t where
  version := 0
  size := 0
  category := 0
  colorType := nvtxColorType_t.NVTX_COLOR_UNKNOWN
  color := 0
  payloadType := 0
  reserved0 := 0
  payload := 0
  messageType := nvtxMessageType_t.NVTX_MESSAGE_UNKNOWN
  message := none

/-- The type `nvtxRangeId_t` of `nvToolsExt.h`. -/
abbrev nvtxRangeId_t := uint64_t

/-- The type `range::handle_t`; the source asserts statically that it is `nvtxRangeId_t`. -/
abbrev handle_t := nvtxRangeId_t

/-- The packed colour value which a `color_t` converts to when stored in the `color` field. -/
abbrev color_t := uint32_t

/-- Modelled from the spec: the enumerated range type `range::Type` is declared in
`cuda/api/profiling.hpp`, which is not among the sources; an enumerator is given by its
underlying integer value. -/
abbrev RangeType := Nat

/-- The type `cudaError_t` of the CUDA runtime: a status code. -/
abbrev cudaError_t := Nat

/-- The status `cudaSuccess`. -/
def cudaSuccess : cudaError_t := 0

/-! ## Events of the calling thread -/

/-- What the calling thread does that is visible outside this layer: operations on
`detail::profiler_mutex` and calls of native entry points, each with the arguments it was
handed and, where it returns one, the value it returned. -/
inductive Event where
  | lock
  | unlock
  | nvtxMarkEx (attributes : nvtxEventAttributes_t)
  | nvtxRangeStartEx (attributes : nvtxEventAttributes_t) (returned : nvtxRangeId_t)
  | nvtxRangeEnd (id : nvtxRangeId_t)
  | cudaProfilerStart (returned : cudaError_t)
  | cudaProfilerStop (returned : cudaError_t)
  | nvtxNameOsThreadA (threadId : uint32_t) (name : c_string)
  | nvtxNameOsThreadW (threadId : uint32_t) (name : c_wstring)
deriving DecidableEq

/-- Everything this translation unit takes from outside: constants of the native header,
defaults declared in `cuda/api/profiling.hpp`, and what the native side answers, as a
function of the events so far. -/
structure Env where
  /-- The constant `NVTX_VERSION`. -/
  NVTX_VERSION : Nat
  /-- The constant `NVTX_EVENT_ATTRIB_STRUCT_SIZE`. -/
  NVTX_EVENT_ATTRIB_STRUCT_SIZE : Nat
  /-- The range type that the one-argument form of `range_start` supplies. -/
  default_type : RangeType
  /-- The colour that the shorter forms of `range_start` supply. -/
  default_color : color_t
  /-- The identifier that `nvtxRangeStartEx` returns. -/
  rangeStartEx_result : List Event → nvtxEventAttributes_t → nvtxRangeId_t
  /-- The status that `cudaProfilerStart` returns. -/
  profilerStart_result : List Event → cudaError_t
  /-- The status that `cudaProfilerStop` returns. -/
  profilerStop_result : List Event → cudaError_t
  /-- The value of `pthread_self()` (Unix) or `GetCurrentThreadId()` (Windows) on the calling
  thread, in its native width. -/
  thread_self : Nat
  /-- The prior contents of the storage in which an automatic `nvtxEventAttributes_t` without
  initialiser is created. -/
  indeterminate : List Event → nvtxEventAttributes_t

/-! ## Computations -/

/-- A computation of the calling thread: from the events so far, its result and the events
it appends to them. -/
def Prog (α : Type) : Type := List Event → α × List Event

/-- The computation that does nothing and returns `a`. -/
def Prog.ret {α : Type} (a : α) : Prog α := fun _ => (a, [])

/-- Sequencing: the second computation sees the events of the first. -/
def Prog.seq {α β : Type} (m : Prog α) (f : α → Prog β) : Prog β := fun past =>
  let r := m past
  let s := f r.1 (past ++ r.2)
  (s.1, r.2 ++ s.2)

instance : Monad Prog where
  pure := Prog.ret
  bind := Prog.seq

/-- The result of a computation run after the events `past`. -/
def Prog.result {α : Type} (m : Prog α) (past : List Event) : α := (m past).1

/-- The events a computation appends when run after the events `past`. -/
def Prog.events {α : Type} (m : Prog α) (past : List Event) : List Event := (m past).2

/-- A single event without result. -/
def emit (e : Event) : Prog Unit := fun _ => ((), [e])

/-- The native call `nvtxMarkEx(&attributes)`. -/
def nvtxMarkEx (attributes : nvtxEventAttributes_t) : Prog Unit :=
  emit (Event.nvtxMarkEx attributes)

/-- The native call `nvtxRangeStartEx(&attributes)`. -/
def nvtxRangeStartEx (E : Env) (attributes : nvtxEventAttributes_t) : Prog nvtxRangeId_t :=
  fun past =>
    let id := E.rangeStartEx_result past attributes
    (id, [Event.nvtxRangeStartEx attributes id])

/-- The native call `nvtxRangeEnd(id)`. -/
def nvtxRangeEnd (id : nvtxRangeId_t) : Prog Unit := emit (Event.nvtxRangeEnd id)

/-- The native call `cudaProfilerStart()`. -/
def cudaProfilerStart (E : Env) : Prog cudaError_t := fun past =>
  let status := E.profilerStart_result past
  (status, [Event.cudaProfilerStart status])

/-- The native call `cudaProfilerStop()`. -/
def cudaProfilerStop (E : Env) : Prog cudaError_t := fun past =>
  let status := E.profilerStop_result past
  (status, [Event.cudaProfilerStop status])

/-- The native call `nvtxNameOsThreadA(threadId, name)`. -/
def nvtxNameOsThreadA (threadId : uint32_t) (name : c_string) : Prog Unit :=
  emit (Event.nvtxNameOsThreadA threadId name)

/-- The native call `nvtxNameOsThreadW(threadId, name)`. -/
def nvtxNameOsThreadW (threadId : uint32_t) (name : c_wstring) : Prog Unit :=
  emit (Event.nvtxNameOsThreadW threadId name)

/-- The expression statement `std::lock_guard<std::mutex> { detail::profiler_mutex };`: a
temporary guard, constructed (the mutex is locked) and destroyed at the end of the same
statement (the mutex is unlocked). -/
def lock_guard_temporary : Prog Unit := do
  emit Event.lock
  emit Event.unlock

/-- A declaration `nvtxEventAttributes_t x;` without initialiser: the record holds whatever
its storage held. -/
def declare_uninitialized (E : Env) : Prog nvtxEventAttributes_t := fun past =>
  (E.indeterminate past, [])

/-! ## The functions of `profiling.cpp` -/

namespace mark

/-- The function `mark::point` (lines 27 to 39). -/
def point (E : Env) (description : std_string) (color : color_t) : Prog Unit := do
  lock_guard_temporary
  let eventAttrib := nvtxEventAttributes_t.zero
  let eventAttrib := { eventAttrib with version := E.NVTX_VERSION }
  let eventAttrib := { eventAttrib with size := E.NVTX_EVENT_ATTRIB_STRUCT_SIZE }
  let eventAttrib := { eventAttrib with colorType := nvtxColorType_t.NVTX_COLOR_ARGB }
  let eventAttrib := { eventAttrib with color := color }
  let eventAttrib := { eventAttrib with messageType := nvtxMessageType_t.NVTX_MESSAGE_TYPE_ASCII }
  let eventAttrib := { eventAttrib with message := some (c_str description) }
  nvtxMarkEx eventAttrib

/-- The function `mark::range_start` (lines 41 to 56); the parameter `type` is not used
in its body. -/
def range_start (E : Env) (description : std_string) (_type : RangeType) (color : color_t) :
    Prog handle_t := do
  lock_guard_temporary
  let range_attributes ← declare_uninitialized E
  let range_attributes := { range_attributes with version := E.NVTX_VERSION }
  let range_attributes := { range_attributes with size := E.NVTX_EVENT_ATTRIB_STRUCT_SIZE }
  let range_attributes := { range_attributes with colorType := nvtxColorType_t.NVTX_COLOR_ARGB }
  let range_attributes := { range_attributes with color := color }
  let range_attributes :=
    { range_attributes with messageType := nvtxMessageType_t.NVTX_MESSAGE_TYPE_ASCII }
  let range_attributes := { range_attributes with message := some (c_str description) }
  let range_handle ← nvtxRangeStartEx E range_attributes
  return range_handle

/-- The one-argument form `range_start(description)` which the constructor of
`scoped_range_marker` calls.  Modelled from the spec: its declaration is in
`cuda/api/profiling.hpp`, which is not among the sources; it forwards to the three-argument
function with a default range type and a default colour, both taken from `Env`. -/
def range_start_default (E : Env) (description : std_string) : Prog handle_t :=
  range_start E description E.default_type E.default_color

/-- The function `mark::range_end` (lines 58 to 63). -/
def range_end (range_handle : handle_t) : Prog Unit :=
  nvtxRangeEnd range_handle

end mark

/-- The class `scoped_range_marker`: its only data member is the handle `range`. -/
structure scoped_range_marker where
  range : handle_t
deriving DecidableEq

/-- The constructor `scoped_range_marker::scoped_range_marker` (lines 68 to 71); the
parameter `type` is not used in its body. -/
def scoped_range_marker.construct (E : Env) (description : std_string) (_type : RangeType) :
    Prog scoped_range_marker := do
  let range ← mark.range_start_default E description
  return { range := range }

/-- The destructor `scoped_range_marker::~scoped_range_marker` (lines 73 to 77). -/
def scoped_range_marker.destroy (self : scoped_range_marker) : Prog Unit :=
  mark.range_end self.range

/-- The error type thrown by `throw_if_error`: a status code and an action description. -/
structure runtime_error where
  code : cudaError_t
  what : String
deriving DecidableEq

/-- Modelled from the spec: `throw_if_error` is declared in `cuda/api/error.hpp`, which is not
among the sources.  It translates a non-success status code into a thrown error carrying the
code and an action label, and does nothing on the success status. -/
def throw_if_error (status : cudaError_t) (message : String) : Except runtime_error Unit :=
  if status = cudaSuccess then Except.ok () else Except.error { code := status, what := message }

/-- The function `start` (lines 79 to 83). -/
def start (E : Env) : Prog (Except runtime_error Unit) := do
  let status ← cudaProfilerStart E
  return throw_if_error status "Starting to profile"

/-- The function `stop` (lines 85 to 89). -/
def stop (E : Env) : Prog (Except runtime_error Unit) := do
  let status ← cudaProfilerStop E
  return throw_if_error status "Starting to profile"

/-- The function `name_host_thread(uint32_t, const std::string&)` (lines 91 to 94). -/
def name_host_thread (thread_id : uint32_t) (name : std_string) : Prog Unit :=
  nvtxNameOsThreadA thread_id (c_str name)

/-- The call `::pthread_self()` or `::GetCurrentThreadId()`, whichever the platform has. -/
def native_thread_self (E : Env) : Prog Nat := fun _ => (E.thread_self, [])

/-- The function `name_host_thread(uint32_t, const std::wstring&)` (lines 98 to 107); the
parameter `thread_id` is not used in its body.  The native call takes a `uint32_t`, to which
the thread-self value is converted. -/
def name_host_thread_w (E : Env) (_thread_id : uint32_t) (name : std_wstring) : Prog Unit := do
  let this_thread_s_native_handle ← native_thread_self E
  nvtxNameOsThreadW (to_uint32 this_thread_s_native_handle) (wc_str name)

/-- The function `name_this_thread` (lines 109 to 118).  The callee takes a `uint32_t`, to
which the thread-self value is converted. -/
def name_this_thread (E : Env) (name : std_string) : Prog Unit := do
  let this_thread_s_native_handle ← native_thread_self E
  name_host_thread (to_uint32 this_thread_s_native_handle) name

/-! ## Scopes -/

/-- A block `{ scoped_range_marker marker(description, type); region }`.  The marker is
constructed first; the region runs; the destructor of the marker runs when the block is
left, be it at its end (the region returned) or during stack unwinding (the region threw,
and the exception goes on to the caller once the destructor has run). -/
def scoped_region {ε α : Type} (E : Env) (description : std_string) (type : RangeType)
    (region : Prog (Except ε α)) : Prog (Except ε α) := do
  let marker ← scoped_range_marker.construct E description type
  let outcome ← region
  match outcome with
  | Except.ok a => do
      marker.destroy
      return Except.ok a
  | Except.error e => do
      marker.destroy
      return Except.error e

/-- Whether an event is a native range-start call. -/
def Event.is_range_start : Event → Bool
  | Event.nvtxRangeStartEx _ _ => true
  | _ => false

/-- Whether an event is a native range-end call. -/
def Event.is_range_end : Event → Bool
  | Event.nvtxRangeEnd _ => true
  | _ => false

/-- Whether an event is a native mark call. -/
def Event.is_mark : Event → Bool
  | Event.nvtxMarkEx _ => true
  | _ => false

/-- Whether an event is an acquisition of the profiler mutex. -/
def Event.is_lock : Event → Bool
  | Event.lock => true
  | _ => false

/-- Whether an event is a release of the profiler mutex. -/
def Event.is_unlock : Event → Bool
  | Event.unlock => true
  | _ => false

/-! ## Sequences of ranges -/

/-- A caller of this layer that opens and closes ranges in nesting or sequential order:
nothing, a point marker, one block after another, a range opened with `range_start` and
closed by handing `range_end` the handle that `range_start` returned, or a range held by a
`scoped_range_marker` for the duration of a block. -/
inductive Block where
  | skip
  | point (description : std_string) (color : color_t)
  | seq (first second : Block)
  | paired (description : std_string) (type : RangeType) (color : color_t) (body : Block)
  | marked (description : std_string) (type : RangeType) (body : Block)

/-- What a block does. -/
def Block.run (E : Env) : Block → Prog Unit
  | Block.skip => pure ()
  | Block.point description color => mark.point E description color
  | Block.seq first second => do
      first.run E
      second.run E
  | Block.paired description type color body => do
      let handle ← mark.range_start E description type color
      body.run E
      mark.range_end handle
  | Block.marked description type body => do
      let marker ← scoped_range_marker.construct E description type
      body.run E
      marker.destroy

/-- Pairing of the native end calls with the native start calls in a sequence of events.
`opened` holds the identifiers returned by the start calls not yet ended, innermost first.
A start call pushes the identifier it returned; an end call corresponds to the innermost
open start call and must have been handed the identifier that call returned.  The result is
the identifiers left open, or `none` when some end call has no open start call or was handed
another identifier than its start call returned. -/
def ends_match : List nvtxRangeId_t → List Event → Option (List nvtxRangeId_t)
  | opened, [] => some opened
  | opened, Event.nvtxRangeStartEx _ returned :: rest => ends_match (returned :: opened) rest
  | opened, Event.nvtxRangeEnd id :: rest =>
      match opened with
      | [] => none
      | innermost :: outer => if id = innermost then ends_match outer rest else none
  | opened, _ :: rest => ends_match opened rest

/-- Whether some native call among the events is issued while the calling thread holds the
profiler mutex; `held` tells whether the thread holds it before the first event. -/
def native_call_while_held : Bool → List Event → Bool
  | _, [] => false
  | _, Event.lock :: rest => native_call_while_held true rest
  | _, Event.unlock :: rest => native_call_while_held false rest
  | held, _ :: rest => held || native_call_while_held held rest

/-- The attribute record an event hands to the native layer, if it hands one. -/
def Event.attributes : Event → Option nvtxEventAttributes_t
  | Event.nvtxMarkEx attributes => some attributes
  | Event.nvtxRangeStartEx attributes _ => some attributes
  | _ => none

/-- The attribute records handed to the native layer in a sequence of events. -/
def handed_records (events : List Event) : List nvtxEventAttributes_t :=
  events.filterMap Event.attributes

/-- The record which `range_start` has built when it calls the native layer after the events
`past`: the six fields it assigns, and in the others the prior contents of the storage. -/
def range_start_record (E : Env) (past : List Event) (d : std_string) (c : color_t) :
    nvtxEventAttributes_t :=
  { E.indeterminate (past ++ [Event.lock, Event.unlock]) with
    version := E.NVTX_VERSION
    size := E.NVTX_EVENT_ATTRIB_STRUCT_SIZE
    colorType := nvtxColorType_t.NVTX_COLOR_ARGB
    color := c
    messageType := nvtxMessageType_t.NVTX_MESSAGE_TYPE_ASCII
    message := some (c_str d) }

/-! ## Environments for evaluation -/

/-- An environment in which the native layer numbers the ranges by the count of events so
far and reports success, the thread-self identifier is `thread_self`, and the storage of an
uninitialised record holds `garbage`. -/
def Env.sample (thread_self : Nat) (garbage : nvtxEventAttributes_t) : Env where
  NVTX_VERSION := 2
  NVTX_EVENT_ATTRIB_STRUCT_SIZE := 48
  default_type := 0
  default_color := 0
  rangeStartEx_result := fun past _ => ⟨past.length % 2 ^ 64, Nat.mod_lt _ (by norm_num)⟩
  profilerStart_result := fun _ => cudaSuccess
  profilerStop_result := fun _ => cudaSuccess
  thread_self := thread_self
  indeterminate := fun _ => garbage

/-- An environment as `Env.sample`, except that `cudaProfilerStart` and `cudaProfilerStop`
report the status `status`. -/
def Env.reporting (status : cudaError_t) : Env :=
  { Env.sample 0 nvtxEventAttributes_t.zero with
    profilerStart_result := fun _ => status
    profilerStop_result := fun _ => status }

end profiling
end cuda

namespace cuda
namespace profiling

/-! ## Theorems -/

/-! ### How the computations run -/

theorem Prog.bind_run {α β : Type} (m : Prog α) (f : α → Prog β) (past : List Event) :
    (m >>= f) past
      = ((f (m past).1 (past ++ (m past).2)).1,
         (m past).2 ++ (f (m past).1 (past ++ (m past).2)).2) := rfl

theorem Prog.pure_run {α : Type} (a : α) (past : List Event) :
    (pure a : Prog α) past = (a, []) := rfl

theorem lock_guard_temporary_run (past : List Event) :
    lock_guard_temporary past = ((), [Event.lock, Event.unlock]) := rfl

theorem point_run (E : Env) (d : std_string) (c : color_t) (past : List Event) :
    mark.point E d c past
      = ((), [Event.lock, Event.unlock, Event.nvtxMarkEx
          { nvtxEventAttributes_t.zero with
            version := E.NVTX_VERSION
            size := E.NVTX_EVENT_ATTRIB_STRUCT_SIZE
            colorType := nvtxColorType_t.NVTX_COLOR_ARGB
            color := c
            messageType := nvtxMessageType_t.NVTX_MESSAGE_TYPE_ASCII
            message := some (c_str d) }]) := rfl

theorem range_start_run (E : Env) (d : std_string) (t : RangeType) (c : color_t)
    (past : List Event) :
    mark.range_start E d t c past
      = (E.rangeStartEx_result (past ++ [Event.lock, Event.unlock]) (range_start_record E past d c),
         [Event.lock, Event.unlock,
          Event.nvtxRangeStartEx (range_start_record E past d c)
            (E.rangeStartEx_result (past ++ [Event.lock, Event.unlock])
              (range_start_record E past d c))]) := by
  simp [mark.range_start, Prog.bind_run, Prog.pure_run, lock_guard_temporary_run,
    declare_uninitialized, nvtxRangeStartEx, range_start_record]

theorem range_end_run (h : handle_t) (past : List Event) :
    mark.range_end h past = ((), [Event.nvtxRangeEnd h]) := rfl

theorem construct_run (E : Env) (d : std_string) (t : RangeType) (past : List Event) :
    scoped_range_marker.construct E d t past
      = (⟨(mark.range_start E d E.default_type E.default_color past).1⟩,
         (mark.range_start E d E.default_type E.default_color past).2) := by
  simp [scoped_range_marker.construct, mark.range_start_default, Prog.bind_run, Prog.pure_run]

theorem destroy_run (m : scoped_range_marker) (past : List Event) :
    m.destroy past = ((), [Event.nvtxRangeEnd m.range]) := rfl

theorem scoped_region_run {ε α : Type} (E : Env) (d : std_string) (t : RangeType)
    (region : Prog (Except ε α)) (past : List Event) :
    scoped_region E d t region past
      = ((region (past ++ (scoped_range_marker.construct E d t past).2)).1,
         (scoped_range_marker.construct E d t past).2
           ++ (region (past ++ (scoped_range_marker.construct E d t past).2)).2
           ++ [Event.nvtxRangeEnd (scoped_range_marker.construct E d t past).1.range]) := by
  unfold scoped_region
  rw [Prog.bind_run, Prog.bind_run]
  cases hr : (region (past ++ (scoped_range_marker.construct E d t past).2)).1 <;>
    simp [Prog.bind_run, Prog.pure_run, destroy_run]

theorem ends_match_append (xs ys : List Event) :
    ∀ opened : List nvtxRangeId_t,
      ends_match opened (xs ++ ys) = (ends_match opened xs).bind (fun left => ends_match left ys) := by
  induction xs with
  | nil => intro opened; simp [ends_match]
  | cons e rest ih =>
    intro opened
    cases e with
    | nvtxRangeEnd id =>
      cases opened with
      | nil => simp [ends_match]
      | cons innermost outer =>
        by_cases hid : id = innermost
        · simp [ends_match, hid, ih]
        · simp [ends_match, hid]
    | _ => simp [ends_match, ih]

theorem block_ends_match (E : Env) (b : Block) :
    ∀ (past : List Event) (opened : List nvtxRangeId_t),
      ends_match opened (b.run E past).2 = some opened := by
  induction b with
  | skip => intro past opened; simp [Block.run, Prog.pure_run, ends_match]
  | point d c => intro past opened; simp [Block.run, point_run, ends_match]
  | seq first second ih1 ih2 =>
    intro past opened
    simp [Block.run, Prog.bind_run, ends_match_append, ih1, ih2]
  | paired d t c body ih =>
    intro past opened
    have shape : (Block.run E (Block.paired d t c body) past).2
        = (mark.range_start E d t c past).2
          ++ ((body.run E (past ++ (mark.range_start E d t c past).2)).2
          ++ [Event.nvtxRangeEnd (mark.range_start E d t c past).1]) := rfl
    rw [shape, range_start_run]
    simp [ends_match, ends_match_append, ih]
  | marked d t body ih =>
    intro past opened
    have shape : (Block.run E (Block.marked d t body) past).2
        = (scoped_range_marker.construct E d t past).2
          ++ ((body.run E (past ++ (scoped_range_marker.construct E d t past).2)).2
          ++ [Event.nvtxRangeEnd (scoped_range_marker.construct E d t past).1.range]) := rfl
    rw [shape, construct_run, range_start_run]
    simp [ends_match, ends_match_append, ih]

theorem read_c_str (s : std_string) :
    read_c_string (c_str s) = s.takeWhile (fun b => b ≠ 0) := by
  unfold read_c_string c_str
  induction s with
  | nil => simp
  | cons b rest ih =>
    by_cases hb : b = 0
    · simp [List.takeWhile_cons, hb]
    · rw [List.cons_append, List.takeWhile_cons, List.takeWhile_cons, ih]

theorem name_this_thread_run (E : Env) (s : std_string) (past : List Event) :
    name_this_thread E s past
      = ((), [Event.nvtxNameOsThreadA (to_uint32 E.thread_self) (c_str s)]) := rfl

theorem name_host_thread_w_run (E : Env) (id : uint32_t) (w : std_wstring)
    (past : List Event) :
    name_host_thread_w E id w past
      = ((), [Event.nvtxNameOsThreadW (to_uint32 E.thread_self) (wc_str w)]) := rfl

/-! ### Evaluations -/

/-- A scoped range named "kernel-launch" around a region that does nothing: one start call
with that description, then one end call with the identifier the start call returned. -/
theorem scoped_kernel_launch_events :
    (scoped_region (Env.sample 0 nvtxEventAttributes_t.zero)
        [107, 101, 114, 110, 101, 108, 45, 108, 97, 117, 110, 99, 104] 0
        (pure (Except.ok ()) : Prog (Except Unit Unit))).events []
      = [Event.lock, Event.unlock,
         Event.nvtxRangeStartEx
           { version := 2, size := 48, category := 0,
             colorType := nvtxColorType_t.NVTX_COLOR_ARGB, color := 0, payloadType := 0,
             reserved0 := 0, payload := 0,
             messageType := nvtxMessageType_t.NVTX_MESSAGE_TYPE_ASCII,
             message := some [107, 101, 114, 110, 101, 108, 45, 108, 97, 117, 110, 99, 104, 0] }
           2,
         Event.nvtxRangeEnd 2] := by
  decide

/-- A scoped range around a region that throws: the end call is issued all the same and the
error of the region reaches the caller. -/
theorem scoped_region_throwing :
    scoped_region (Env.sample 0 nvtxEventAttributes_t.zero) [107] 0
        (fun _ => (Except.error 3, [Event.cudaProfilerStop 0]) : Prog (Except Nat Unit)) []
      = (Except.error 3,
         [Event.lock, Event.unlock,
          Event.nvtxRangeStartEx
            { version := 2, size := 48, category := 0,
              colorType := nvtxColorType_t.NVTX_COLOR_ARGB, color := 0, payloadType := 0,
              reserved0 := 0, payload := 0,
              messageType := nvtxMessageType_t.NVTX_MESSAGE_TYPE_ASCII,
              message := some [107, 0] }
            2,
          Event.cudaProfilerStop 0,
          Event.nvtxRangeEnd 2]) := by
  rfl

/-- A call of `stop` when the native layer reports the status 4: the status is raised. -/
theorem stop_reports_failure :
    stop (Env.reporting 4) []
      = (Except.error { code := 4, what := "Starting to profile" }, [Event.cudaProfilerStop 4])
    ∧ stop (Env.reporting cudaSuccess) [] = (Except.ok (), [Event.cudaProfilerStop 0]) := by
  exact ⟨rfl, rfl⟩

/-- The pairing of end calls with start calls rejects an end call that was handed another
identifier than its start call returned, and an end call without a start call. -/
theorem ends_match_rejects :
    ends_match [] [Event.nvtxRangeStartEx nvtxEventAttributes_t.zero 1, Event.nvtxRangeEnd 2]
      = none
    ∧ ends_match [] [Event.nvtxRangeEnd 2] = none
    ∧ ends_match []
        [Event.nvtxRangeStartEx nvtxEventAttributes_t.zero 1,
         Event.nvtxRangeStartEx nvtxEventAttributes_t.zero 2,
         Event.nvtxRangeEnd 1, Event.nvtxRangeEnd 2] = none
    ∧ ends_match []
        [Event.nvtxRangeStartEx nvtxEventAttributes_t.zero 1,
         Event.nvtxRangeStartEx nvtxEventAttributes_t.zero 2,
         Event.nvtxRangeEnd 2, Event.nvtxRangeEnd 1] = some [] := by
  decide

/-- A native call between the acquisition and the release of the mutex is found. -/
theorem native_call_while_held_finds :
    native_call_while_held false [Event.lock, Event.nvtxRangeEnd 1, Event.unlock] = true
    ∧ native_call_while_held false [Event.lock, Event.unlock, Event.nvtxRangeEnd 1] = false := by
  decide

/-! ### The claims -/

/-- C1: `start` (resp. `stop`) calls the native session-start (resp. session-stop) entry
point exactly once, and raises an error exactly when the returned status is not the success
status; the error carries that status and the action description "Starting to profile", on
the start path and on the stop path alike. -/
theorem start_stop_raise_native_status (E : Env) (past : List Event) :
    (start E).events past = [Event.cudaProfilerStart (E.profilerStart_result past)]
    ∧ (start E).result past =
        (if E.profilerStart_result past = cudaSuccess then Except.ok ()
         else Except.error ⟨E.profilerStart_result past, "Starting to profile"⟩)
    ∧ ((start E).result past = Except.ok () ↔ E.profilerStart_result past = cudaSuccess)
    ∧ (stop E).events past = [Event.cudaProfilerStop (E.profilerStop_result past)]
    ∧ (stop E).result past =
        (if E.profilerStop_result past = cudaSuccess then Except.ok ()
         else Except.error ⟨E.profilerStop_result past, "Starting to profile"⟩)
    ∧ ((stop E).result past = Except.ok () ↔ E.profilerStop_result past = cudaSuccess) := by
  refine ⟨rfl, rfl, ?_, rfl, rfl, ?_⟩
  · show throw_if_error (E.profilerStart_result past) _ = _ ↔ _
    unfold throw_if_error
    split <;> simp_all
  · show throw_if_error (E.profilerStop_result past) _ = _ ↔ _
    unfold throw_if_error
    split <;> simp_all

/-- C2: a `scoped_range_marker(d, t)` constructed before a region and destroyed when the
region is left issues exactly one native range-start call, whose record carries the
description `d`, before the events of the region, and exactly one native range-end call
after them, whether the region returns or throws; the outcome of the region is passed on. -/
theorem scoped_range_marker_one_start_one_end {ε α : Type} (E : Env) (d : std_string)
    (t : RangeType) (region : Prog (Except ε α)) (past : List Event) :
    ∃ (a : nvtxEventAttributes_t) (h : nvtxRangeId_t),
      a.message = some (c_str d)
      ∧ (scoped_range_marker.construct E d t).events past
          = [Event.lock, Event.unlock, Event.nvtxRangeStartEx a h]
      ∧ (scoped_region E d t region).events past
          = [Event.lock, Event.unlock, Event.nvtxRangeStartEx a h]
            ++ region.events (past ++ [Event.lock, Event.unlock, Event.nvtxRangeStartEx a h])
            ++ [Event.nvtxRangeEnd h]
      ∧ (scoped_region E d t region).result past
          = region.result (past ++ [Event.lock, Event.unlock, Event.nvtxRangeStartEx a h])
      ∧ ([Event.lock, Event.unlock, Event.nvtxRangeStartEx a h].countP Event.is_range_start = 1
          ∧ [Event.lock, Event.unlock, Event.nvtxRangeStartEx a h].countP Event.is_range_end = 0)
      ∧ ([Event.nvtxRangeEnd h].countP Event.is_range_end = 1
          ∧ [Event.nvtxRangeEnd h].countP Event.is_range_start = 0) := by
  refine ⟨range_start_record E past d E.default_color,
    E.rangeStartEx_result (past ++ [Event.lock, Event.unlock])
      (range_start_record E past d E.default_color), rfl, ?_, ?_, ?_, ⟨rfl, rfl⟩, ⟨rfl, rfl⟩⟩
  · simp [Prog.events, construct_run, range_start_run]
  · simp [Prog.events, scoped_region_run, construct_run, range_start_run]
  · simp [Prog.result, Prog.events, scoped_region_run, construct_run, range_start_run]

/-- C3: `range_start` returns the identifier which the native range-start call returned,
`range_end h` hands exactly `h` to the native range-end call, the destructor of a
`scoped_range_marker` hands the native range-end call the identifier which the native
range-start call of its constructor returned, and in the events of every block of nested or
sequential ranges each native end call is handed the identifier returned by its corresponding
native start call. -/
theorem handle_identity_preserved (E : Env) (d : std_string) (t : RangeType) (c : color_t)
    (h : handle_t) (b : Block) (opened : List nvtxRangeId_t) (past : List Event) :
    (∃ a : nvtxEventAttributes_t,
        (mark.range_start E d t c).events past
          = [Event.lock, Event.unlock,
             Event.nvtxRangeStartEx a ((mark.range_start E d t c).result past)])
    ∧ (mark.range_end h).events past = [Event.nvtxRangeEnd h]
    ∧ (∃ a : nvtxEventAttributes_t,
        (scoped_range_marker.construct E d t).events past
          = [Event.lock, Event.unlock,
             Event.nvtxRangeStartEx a ((scoped_range_marker.construct E d t).result past).range]
        ∧ ∀ later : List Event,
            (((scoped_range_marker.construct E d t).result past).destroy).events later
              = [Event.nvtxRangeEnd ((scoped_range_marker.construct E d t).result past).range])
    ∧ ends_match opened ((b.run E).events past) = some opened := by
  refine ⟨⟨range_start_record E past d c, ?_⟩, rfl,
    ⟨range_start_record E past d E.default_color, ?_, fun _ => rfl⟩, block_ends_match E b past opened⟩
  · simp [Prog.events, Prog.result, range_start_run]
  · simp [Prog.events, Prog.result, construct_run, range_start_run]

/-- C4, as stated, fails: for the name with the bytes 97, 0, 98 the native narrow call is
issued once with the given identifier, but the name which the native layer reads from the
NUL-terminated pointer is the single byte 97, not the three bytes of the name. -/
theorem name_host_thread_name_cut_at_nul :
    (name_host_thread 7 [97, 0, 98]).events [] = [Event.nvtxNameOsThreadA 7 [97, 0, 98, 0]]
    ∧ read_c_string [97, 0, 98, 0] = [97]
    ∧ read_c_string [97, 0, 98, 0] ≠ [97, 0, 98] := by
  decide

/-- C4, amended: `name_host_thread(id, s)` issues exactly one native narrow call, with the
identifier `id` and the pointer `s.c_str()`; the name which the native layer reads from it is
the part of `s` before its first NUL byte, which is `s` byte for byte exactly when `s` holds
no NUL byte. -/
theorem name_host_thread_forwards_up_to_nul (id : uint32_t) (s : std_string)
    (past : List Event) :
    (name_host_thread id s).events past = [Event.nvtxNameOsThreadA id (c_str s)]
    ∧ read_c_string (c_str s) = s.takeWhile (fun b => b ≠ 0)
    ∧ (read_c_string (c_str s) = s ↔ (0 : Fin 256) ∉ s) := by
  refine ⟨rfl, read_c_str s, ?_⟩
  rw [read_c_str, List.takeWhile_eq_self_iff]
  constructor
  · intro hall hmem
    simpa using hall 0 hmem
  · intro hnot x hx
    have hx0 : x ≠ 0 := fun h0 => hnot (h0 ▸ hx)
    simpa using hx0

/-- C5, at a failing input: on a thread whose thread-self identifier is 139888630425408
(0x7f3a5c1fe740, a `pthread_t` of 64 bits), `name_this_thread` issues one native narrow call
whose thread identifier is 1545594688, the low 32 bits, and not the thread-self identifier. -/
theorem name_this_thread_narrows_thread_self :
    (name_this_thread (Env.sample 139888630425408 nvtxEventAttributes_t.zero) [119]).events []
      = [Event.nvtxNameOsThreadA 1545594688 [119, 0]]
    ∧ ((1545594688 : uint32_t) : Nat)
        ≠ (Env.sample 139888630425408 nvtxEventAttributes_t.zero).thread_self := by
  decide

/-- C6, at a failing input: called with the thread identifier 7 on a thread whose thread-self
identifier is 9, the wide-string `name_host_thread` issues one native wide call whose thread
identifier is 9, not the given 7. -/
theorem name_host_thread_w_drops_given_id :
    (name_host_thread_w (Env.sample 9 nvtxEventAttributes_t.zero) 7 [103, 112, 117]).events []
      = [Event.nvtxNameOsThreadW 9 [103, 112, 117, 0]]
    ∧ (9 : uint32_t) ≠ 7 := by
  decide

/-- C7: `point(d, c)` issues exactly one native mark call and returns nothing, and
`range_start(d, t, c)` issues exactly one native range-start call; in both, the record
handed to the native call has colour type ARGB, colour `c`, message type ASCII and, as its
message, the pointer `d.c_str()` to the bytes of `d`. -/
theorem point_and_range_start_forward_description_and_colour (E : Env) (d : std_string)
    (t : RangeType) (c : color_t) (past : List Event) :
    (∃ a : nvtxEventAttributes_t,
        (mark.point E d c).events past = [Event.lock, Event.unlock, Event.nvtxMarkEx a]
        ∧ a.colorType = nvtxColorType_t.NVTX_COLOR_ARGB ∧ a.color = c
        ∧ a.messageType = nvtxMessageType_t.NVTX_MESSAGE_TYPE_ASCII
        ∧ a.message = some (c_str d))
    ∧ (mark.point E d c).result past = ()
    ∧ ((mark.point E d c).events past).countP Event.is_mark = 1
    ∧ (∃ (a : nvtxEventAttributes_t) (h : nvtxRangeId_t),
        (mark.range_start E d t c).events past
          = [Event.lock, Event.unlock, Event.nvtxRangeStartEx a h]
        ∧ a.colorType = nvtxColorType_t.NVTX_COLOR_ARGB ∧ a.color = c
        ∧ a.messageType = nvtxMessageType_t.NVTX_MESSAGE_TYPE_ASCII
        ∧ a.message = some (c_str d))
    ∧ ((mark.range_start E d t c).events past).countP Event.is_range_start = 1 := by
  have rs : (mark.range_start E d t c).events past
      = [Event.lock, Event.unlock, Event.nvtxRangeStartEx (range_start_record E past d c)
          (E.rangeStartEx_result (past ++ [Event.lock, Event.unlock])
            (range_start_record E past d c))] := by
    simp only [Prog.events, range_start_run]
  refine ⟨⟨_, rfl, rfl, rfl, rfl, rfl⟩, rfl, rfl, ⟨_, _, rs, rfl, rfl, rfl, rfl⟩, ?_⟩
  rw [rs]
  rfl

/-- C8, as stated, fails: for the two distinct range types 0 and 1, `range_start` hands the
native layer the same record, and does altogether the same. -/
theorem range_start_same_for_two_types :
    (0 : RangeType) ≠ 1
    ∧ handed_records
        ((mark.range_start (Env.sample 0 nvtxEventAttributes_t.zero) [107] 0 255).events [])
      = handed_records
        ((mark.range_start (Env.sample 0 nvtxEventAttributes_t.zero) [107] 1 255).events [])
    ∧ mark.range_start (Env.sample 0 nvtxEventAttributes_t.zero) [107] 0 255 []
      = mark.range_start (Env.sample 0 nvtxEventAttributes_t.zero) [107] 1 255 [] := by
  decide

/-- C8, amended: `range_start` accepts a range type but hands nothing of it to the native
range-start call: for every description, colour and events so far, any two range types give
the same events, in particular the same record handed to the native layer, and the same
result. -/
theorem range_start_ignores_type (E : Env) (d : std_string) (t1 t2 : RangeType) (c : color_t)
    (past : List Event) :
    mark.range_start E d t1 c past = mark.range_start E d t2 c past
    ∧ handed_records ((mark.range_start E d t1 c).events past)
        = handed_records ((mark.range_start E d t2 c).events past) :=
  ⟨rfl, rfl⟩

/-- C9: `point` and `range_start` each acquire the profiler mutex exactly once and release it
before their native call, `range_end` never acquires it, and none of the three issues a
native call while the calling thread holds the profiler mutex. -/
theorem no_native_call_while_profiler_mutex_held (E : Env) (d : std_string) (t : RangeType)
    (c : color_t) (h : handle_t) (past : List Event) :
    (∃ a : nvtxEventAttributes_t,
        (mark.point E d c).events past = [Event.lock, Event.unlock, Event.nvtxMarkEx a])
    ∧ ((mark.point E d c).events past).countP Event.is_lock = 1
    ∧ ((mark.point E d c).events past).countP Event.is_unlock = 1
    ∧ native_call_while_held false ((mark.point E d c).events past) = false
    ∧ (∃ (a : nvtxEventAttributes_t) (r : nvtxRangeId_t),
        (mark.range_start E d t c).events past
          = [Event.lock, Event.unlock, Event.nvtxRangeStartEx a r])
    ∧ ((mark.range_start E d t c).events past).countP Event.is_lock = 1
    ∧ ((mark.range_start E d t c).events past).countP Event.is_unlock = 1
    ∧ native_call_while_held false ((mark.range_start E d t c).events past) = false
    ∧ (mark.range_end h).events past = [Event.nvtxRangeEnd h]
    ∧ ((mark.range_end h).events past).countP Event.is_lock = 0
    ∧ native_call_while_held false ((mark.range_end h).events past) = false := by
  have rs : (mark.range_start E d t c).events past
      = [Event.lock, Event.unlock, Event.nvtxRangeStartEx (range_start_record E past d c)
          (E.rangeStartEx_result (past ++ [Event.lock, Event.unlock])
            (range_start_record E past d c))] := by
    simp only [Prog.events, range_start_run]
  refine ⟨⟨_, rfl⟩, rfl, rfl, rfl, ⟨_, _, rs⟩, ?_, ?_, ?_, rfl, rfl, rfl⟩
  · rw [rs]; rfl
  · rw [rs]; rfl
  · rw [rs]; rfl

/-- C10, at a failing input: when the storage in which `range_start` creates its record held
the category 1, the record `range_start` hands to the native range-start call has the
category 1, whereas the record `point` hands to the native mark call for the same description
and colour has the category 0; the two records differ. -/
theorem range_start_record_keeps_prior_contents :
    handed_records
        ((mark.range_start (Env.sample 0 { nvtxEventAttributes_t.zero with category := 1 })
          [107] 0 255).events [])
      = [{ version := 2, size := 48, category := 1,
           colorType := nvtxColorType_t.NVTX_COLOR_ARGB, color := 255, payloadType := 0,
           reserved0 := 0, payload := 0,
           messageType := nvtxMessageType_t.NVTX_MESSAGE_TYPE_ASCII,
           message := some [107, 0] }]
    ∧ handed_records
        ((mark.point (Env.sample 0 { nvtxEventAttributes_t.zero with category := 1 })
          [107] 255).events [])
      = [{ version := 2, size := 48, category := 0,
           colorType := nvtxColorType_t.NVTX_COLOR_ARGB, color := 255, payloadType := 0,
           reserved0 := 0, payload := 0,
           messageType := nvtxMessageType_t.NVTX_MESSAGE_TYPE_ASCII,
           message := some [107, 0] }]
    ∧ handed_records
        ((mark.range_start (Env.sample 0 { nvtxEventAttributes_t.zero with category := 1 })
          [107] 0 255).events [])
      ≠ handed_records
        ((mark.point (Env.sample 0 { nvtxEventAttributes_t.zero with category := 1 })
          [107] 255).events []) := by
  decide

end profiling
end cuda
